import Mathlib

/-!
# Vibrator HAL shim (`vibrator.c`)

A shallow embedding of the vibrator hardware module: the sysfs writer, the
timed-output, LED and force-feedback backends, and the selector `vibra_open`.

System calls are answered by an `Env`: a deterministic world that maps the
number of calls made so far and the arguments of a call to its outcome.  Every
call is appended, with its outcome, to the `trace` of the state, so ordering
properties can be read off the trace.  The three file-level statics of the C
file (`vibra_ff_id`, `vibra_ff_fd`, `vibra_event_id`) are fields of the state.
-/

namespace Vibrator

/-! ## Basic types and constants -/

/-- Contents of a NUL-terminated C string, the terminator not included. -/
abbrev CStr := List Char

/-- A value of `errno` after a failed call: always positive. -/
structure Errno where
  val : Nat
  pos : 0 < val
deriving DecidableEq, Repr

def EAGAIN : Int := 11
def ENOMEM : Int := 12
def ENODEV : Int := 19

def TIMEOUT_STR_LEN : Nat := 20
def VIBRATOR_FILE_LEN : Nat := 64

def VIBRATOR_NONE : Nat := 0
def VIBRATOR_FF : Nat := 1
def VIBRATOR_LED : Nat := 2
def VIBRATOR_TIMED : Nat := 3
def VIBRATOR_INVLD : Nat := 4

/-- Event type `EV_FF` of `linux/input.h`. -/
def EV_FF : Nat := 0x15
/-- Effect type `FF_RUMBLE` of `linux/input.h`. -/
def FF_RUMBLE : Nat := 0x50

/-- Size of `struct input_event` (LP64 layout: 16-byte timeval, two `__u16`, one `__s32`). -/
def sizeof_input_event : Int := 24

/-- Conversion to `__u16`. -/
def toU16 (n : Int) : Nat := (n % 65536).toNat
/-- Conversion to `__s16`. -/
def toS16 (n : Int) : Int := (n + 32768) % 65536 - 32768
/-- Conversion to `__s32` / `int`. -/
def toS32 (n : Int) : Int := (n + 2147483648) % 4294967296 - 2147483648

/-- The record `struct ff_effect` of `linux/input.h`, with the `rumble` arm of its union:
`__u16 type; __s16 id; __u16 direction; struct ff_trigger { __u16 button, interval; };
struct ff_replay { __u16 length, delay; }; struct ff_rumble_effect { __u16 strong_magnitude,
weak_magnitude; }`.  Every field holds a value already converted to the field's width. -/
structure ff_effect where
  type : Nat
  id : Int
  direction : Nat
  trigger_button : Nat
  trigger_interval : Nat
  replay_length : Nat
  replay_delay : Nat
  rumble_strong_magnitude : Nat
  rumble_weak_magnitude : Nat
deriving DecidableEq, Repr

/-- The record `struct input_event` (`__u16 type; __u16 code; __s32 value`); `time` is the
zeroed timestamp, kept as its two components. -/
structure input_event where
  time_sec : Nat
  time_usec : Nat
  type : Nat
  code : Nat
  value : Int
deriving DecidableEq, Repr

inductive OFlag where
  | O_RDWR
  | O_WRONLY
deriving DecidableEq, Repr

/-- Outcome of `open`: a non-negative descriptor, or `-1` with `errno` set. -/
inductive OpenResult where
  | ok (fd : Nat)
  | fail (errno : Errno)
deriving DecidableEq, Repr

/-- Outcome of `write`: the number of bytes written, or `-1` with `errno` set. -/
inductive WriteResult where
  | ok (written : Nat)
  | fail (errno : Errno)
deriving DecidableEq, Repr

/-- Outcome of `ioctl(fd, EVIOCSFF, &effect)`: `0` with the effect id the kernel leaves in
`effect.id` (an `__s16` that is non-negative after success), or `-1` with `errno` set. -/
inductive UploadResult where
  | ok (id : Fin 32768)
  | fail (errno : Errno)
deriving DecidableEq, Repr

/-- Outcome of `ioctl(fd, EVIOCRMFF, id)`: `0`, or `-1` with `errno` set. -/
inductive EraseResult where
  | ok
  | fail (errno : Errno)
deriving DecidableEq, Repr

/-- What is handed to `write`: the bytes of a string buffer, or one `struct input_event`. -/
inductive Payload where
  | bytes (b : List Char)
  | event (e : input_event)
deriving DecidableEq, Repr

/-- One entry that `readdir` yields while `/dev/input` is walked, together with what the
world answers for it: the outcome of opening the entry read-write and the device name that
`EVIOCGNAME` reports (`none`: the call fails and leaves the zeroed buffer untouched). -/
structure DirEnt where
  d_name : CStr
  open_res : OpenResult
  name : Option CStr
deriving DecidableEq, Repr

/-- A system call made by the module, with its outcome. -/
inductive Event where
  | opendir (path : CStr) (ok : Bool)
  | readdir (d_name : Option CStr)
  | closedir
  | open_ (path : CStr) (flag : OFlag) (res : OpenResult)
  | close (fd : Int)
  | write (fd : Int) (buf : Payload) (count : Int) (res : WriteResult)
  | eviocgname (fd : Int) (len : Nat) (res : Option CStr)
  | eviocsff (fd : Int) (effect : ff_effect) (res : UploadResult)
  | eviocrmff (fd : Int) (id : Int) (res : EraseResult)
  | calloc (ok : Bool)
deriving DecidableEq, Repr

/-- The world: the outcome of each call, given the number of calls made before it and the
call's arguments.  `open_` answers both the plain `open` and `TEMP_FAILURE_RETRY(open ...)`,
`write` likewise: the libc retry loop is taken as one call whose outcome is the first one that
is not an interruption. -/
structure Env where
  opendir : Nat → CStr → Option (List DirEnt)
  open_ : Nat → CStr → OFlag → OpenResult
  write : Nat → Int → Payload → Int → WriteResult
  eviocsff : Nat → Int → ff_effect → UploadResult
  eviocrmff : Nat → Int → Int → EraseResult
  calloc : Nat → Bool

/-- Program state: the world, the calls made so far (oldest first) and the statics. -/
structure Sys where
  env : Env
  trace : List Event
  vibra_ff_id : Int
  vibra_ff_fd : Int
  vibra_event_id : Int

/-- Number of calls made so far. -/
def Sys.clock (s : Sys) : Nat := s.trace.length

/-- Record a call. -/
def Sys.emit (s : Sys) (ev : Event) : Sys := { s with trace := s.trace ++ [ev] }

/-- State at program start: `vibra_ff_id = -1`, `vibra_ff_fd = -1`, `vibra_event_id = 0`. -/
def Sys.init (env : Env) : Sys :=
  { env := env, trace := [], vibra_ff_id := -1, vibra_ff_fd := -1, vibra_event_id := 0 }

/-! ## libc helpers -/

/-- The call `snprintf(buf, size, ...)`: the formatted text cut to `size - 1` characters. -/
def snprintf (size : Nat) (formatted : CStr) : CStr := formatted.take (size - 1)

/-- Conversion `%u`. -/
def fmt_u (n : Nat) : CStr := Nat.toDigits 10 n

/-- Conversion `%d`. -/
def fmt_d (i : Int) : CStr :=
  if i < 0 then '-' :: Nat.toDigits 10 i.natAbs else Nat.toDigits 10 i.natAbs

/-- The call `strncmp(a, b, n)`: zero when the strings agree on their first `n` characters
(or up to and including the terminator), else the difference of the first differing pair. -/
def strncmp : CStr → CStr → Nat → Int
  | _, _, 0 => 0
  | [], [], _ + 1 => 0
  | [], b :: _, _ + 1 => - (b.toNat : Int)
  | a :: _, [], _ + 1 => (a.toNat : Int)
  | a :: as, b :: bs, n + 1 =>
    if a = b then strncmp as bs n else (a.toNat : Int) - (b.toNat : Int)

/-- The call `strlen`. -/
def strlen (s : CStr) : Nat := s.length

/-! ## Sysfs writer and timed-output backend -/

def THE_DEVICE : CStr := "/sys/class/timed_output/vibrator/enable".toList

def device_exists (file : CStr) (s : Sys) : Bool × Sys :=
  match s.env.open_ s.clock file OFlag.O_RDWR with
  | OpenResult.fail e => (false, s.emit (Event.open_ file OFlag.O_RDWR (OpenResult.fail e)))
  | OpenResult.ok fd =>
    (true, (s.emit (Event.open_ file OFlag.O_RDWR (OpenResult.ok fd))).emit (Event.close fd))

def vibra_exists (s : Sys) : Bool × Sys := device_exists THE_DEVICE s

def write_value (file value : CStr) (s : Sys) : Int × Sys :=
  match s.env.open_ s.clock file OFlag.O_WRONLY with
  | OpenResult.fail e =>
    (-(e.val : Int), s.emit (Event.open_ file OFlag.O_WRONLY (OpenResult.fail e)))
  | OpenResult.ok fd =>
    let s1 := s.emit (Event.open_ file OFlag.O_WRONLY (OpenResult.ok fd))
    let to_write : Int := strlen value + 1
    let buf := Payload.bytes (value ++ ['\x00'])
    let res := s1.env.write s1.clock fd buf to_write
    let s2 := s1.emit (Event.write fd buf to_write res)
    let ret : Int :=
      match res with
      | WriteResult.fail e => -(e.val : Int)
      | WriteResult.ok written => if (written : Int) ≠ to_write then -EAGAIN else 0
    (ret, s2.emit (Event.close fd))

def sendit (timeout_ms : Nat) (s : Sys) : Int × Sys :=
  let value := snprintf TIMEOUT_STR_LEN (fmt_u timeout_ms)
  write_value THE_DEVICE value s

def vibra_on (timeout_ms : Nat) (s : Sys) : Int × Sys := sendit timeout_ms s

def vibra_off (s : Sys) : Int × Sys := sendit 0 s

/-! ## LED backend -/

def LED_DEVICE : CStr := "/sys/class/leds/vibrator".toList

def write_led_file (file value : CStr) (s : Sys) : Int × Sys :=
  let file_str := snprintf VIBRATOR_FILE_LEN (LED_DEVICE ++ '/' :: file)
  write_value file_str value s

def vibra_led_exists (s : Sys) : Bool × Sys :=
  let file_str := snprintf VIBRATOR_FILE_LEN (LED_DEVICE ++ '/' :: "activate".toList)
  device_exists file_str s

def vibra_led_on (timeout_ms : Nat) (s : Sys) : Int × Sys :=
  let r1 := write_led_file "state".toList "1".toList s
  if r1.1 ≠ 0 then r1
  else
    let value := snprintf TIMEOUT_STR_LEN (fmt_u timeout_ms ++ ['\n'])
    let r2 := write_led_file "duration".toList value r1.2
    if r2.1 ≠ 0 then r2
    else write_led_file "activate".toList "1".toList r2.2

def vibra_led_off (s : Sys) : Int × Sys := write_led_file "activate".toList "0".toList s

/-! ## Force-feedback backend -/

def INPUT_DEVICE : CStr := "/dev/input".toList

def ff_vibrators : List CStr := ["sc27xx:vibrator".toList]

def is_vibra_ff (name : CStr) : Bool :=
  ff_vibrators.any (fun v => strncmp v name (strlen v) = 0)

/-- The white-space test `isspace` of the C locale. -/
def isspace (c : Char) : Bool :=
  c = ' ' || c = '\t' || c = '\n' || c = '\x0b' || c = '\x0c' || c = '\r'

/-- Value of a run of decimal digits, most significant first, continuing from `acc`. -/
def decimalValue : List Char → Nat → Nat
  | [], acc => acc
  | c :: cs, acc => decimalValue cs (acc * 10 + (c.toNat - '0'.toNat))

/-- The conversion `%d` of `sscanf` applied to `rest`: white space is skipped, an optional
sign and a non-empty run of decimal digits are read; `none` when no digit follows.  The value
is stored in an `int`, which is the truncation `toS32` (a value that does not fit is outside
what the C standard defines). -/
def scan_d (rest : CStr) : Option Int :=
  let r := rest.dropWhile isspace
  let neg := r.head? = some '-'
  let r1 := if r.head? = some '-' ∨ r.head? = some '+' then r.tail else r
  let ds := r1.takeWhile Char.isDigit
  if ds = [] then none
  else some (toS32 (if neg then -(decimalValue ds 0 : Int) else (decimalValue ds 0 : Int)))

/-- The call `sscanf(d_name, "event%d", &found)`: the new value of `found`, which is left as
it was when the literal text or the number does not match. -/
def sscanf_event_d (d_name : CStr) (found : Int) : Int :=
  if "event".toList.isPrefixOf d_name then
    match scan_d (d_name.drop 5) with
    | some v => v
    | none => found
  else found

/-- The `readdir` loop of `vibra_ff_lookup`, over the entries the directory stream still
holds; `found` is the local of that name. -/
def vibra_ff_lookup_loop : List DirEnt → Int → Sys → Int × Sys
  | [], found, s => (found, s.emit (Event.readdir none))
  | e :: rest, found, s =>
    let s1 := s.emit (Event.readdir (some e.d_name))
    if strncmp e.d_name "event".toList (strlen "event".toList) ≠ 0 then
      vibra_ff_lookup_loop rest found s1
    else
      let file_name := snprintf (256 - 1) (INPUT_DEVICE ++ '/' :: e.d_name)
      let s2 := s1.emit (Event.open_ file_name OFlag.O_RDWR e.open_res)
      match e.open_res with
      | OpenResult.fail _ => vibra_ff_lookup_loop rest found s2
      | OpenResult.ok fd =>
        let buf : CStr := match e.name with
          | none => []
          | some n => n.take (64 - 1)
        let s3 := (s2.emit (Event.eviocgname fd (64 - 1) e.name)).emit (Event.close fd)
        if is_vibra_ff buf then (sscanf_event_d e.d_name found, s3)
        else vibra_ff_lookup_loop rest found s3

def vibra_ff_lookup (s : Sys) : Int × Sys :=
  match s.env.opendir s.clock INPUT_DEVICE with
  | none => (-1, s.emit (Event.opendir INPUT_DEVICE false))
  | some entries =>
    let r := vibra_ff_lookup_loop entries (-1) (s.emit (Event.opendir INPUT_DEVICE true))
    (r.1, r.2.emit Event.closedir)

/-- Path of the event node: `snprintf(file_str, sizeof(file_str), "%s/event%d", ...)`. -/
def event_node_path (event_id : Int) : CStr :=
  snprintf VIBRATOR_FILE_LEN (INPUT_DEVICE ++ "/event".toList ++ fmt_d event_id)

def vibra_ff_exists (s : Sys) : Bool × Sys :=
  let r := vibra_ff_lookup s
  let s1 : Sys := { r.2 with vibra_event_id := r.1 }
  if s1.vibra_event_id < 0 then (false, s1)
  else device_exists (event_node_path s1.vibra_event_id) s1

/-- The effect record after `memset(&effect, 0, sizeof(effect))`. -/
def ff_effect.zero : ff_effect :=
  { type := 0, id := 0, direction := 0, trigger_button := 0, trigger_interval := 0,
    replay_length := 0, replay_delay := 0, rumble_strong_magnitude := 0,
    rumble_weak_magnitude := 0 }

/-- The effect record that `vibra_ff_upload` fills in before the `EVIOCSFF` call. -/
def upload_effect (vibra_ff_id : Int) (timeout_ms : Nat) : ff_effect :=
  { ff_effect.zero with
    type := toU16 FF_RUMBLE
    id := toS16 (if vibra_ff_id ≥ 0 then vibra_ff_id else -1)
    replay_delay := toU16 0
    replay_length := toU16 timeout_ms
    rumble_weak_magnitude := toU16 1 }

def vibra_ff_upload (timeout_ms : Nat) (s : Sys) : Int × Sys :=
  if s.vibra_ff_fd < 0 then (-1, s)
  else
    let effect := upload_effect s.vibra_ff_id timeout_ms
    match s.env.eviocsff s.clock s.vibra_ff_fd effect with
    | UploadResult.fail e =>
      (-1, s.emit (Event.eviocsff s.vibra_ff_fd effect (UploadResult.fail e)))
    | UploadResult.ok id =>
      let s1 := s.emit (Event.eviocsff s.vibra_ff_fd effect (UploadResult.ok id))
      if s1.vibra_ff_id < 0 then (0, { s1 with vibra_ff_id := (id.val : Int) })
      else (0, s1)

def vibra_ff_erase (s : Sys) : Int × Sys :=
  if s.vibra_ff_fd < 0 then (-1, s)
  else
    let res := s.env.eviocrmff s.clock s.vibra_ff_fd s.vibra_ff_id
    let s1 := s.emit (Event.eviocrmff s.vibra_ff_fd s.vibra_ff_id res)
    (0, { s1 with vibra_ff_id := -1 })

/-- The event record that `vibra_ff_write` fills in. -/
def ff_event (vibra_ff_id : Int) (count : Nat) : input_event :=
  { time_sec := 0, time_usec := 0, type := toU16 EV_FF, code := toU16 vibra_ff_id,
    value := toS32 count }

def vibra_ff_write (count : Nat) (s : Sys) : Int × Sys :=
  if s.vibra_ff_fd < 0 then (-1, s)
  else
    let event := Payload.event (ff_event s.vibra_ff_id count)
    let res := s.env.write s.clock s.vibra_ff_fd event sizeof_input_event
    let s1 := s.emit (Event.write s.vibra_ff_fd event sizeof_input_event res)
    let ret : Int := match res with
      | WriteResult.fail _ => -1
      | WriteResult.ok written => written
    if ret ≠ sizeof_input_event then (-EAGAIN, s1) else (0, s1)

def vibra_ff_on (timeout_ms : Nat) (s : Sys) : Int × Sys :=
  let file_str := event_node_path s.vibra_event_id
  if s.vibra_ff_fd < 0 then
    match s.env.open_ s.clock file_str OFlag.O_RDWR with
    | OpenResult.fail e =>
      (-(e.val : Int),
        { s.emit (Event.open_ file_str OFlag.O_RDWR (OpenResult.fail e)) with vibra_ff_fd := -1 })
    | OpenResult.ok fd =>
      let s1 : Sys :=
        { s.emit (Event.open_ file_str OFlag.O_RDWR (OpenResult.ok fd)) with
          vibra_ff_fd := (fd : Int) }
      (0, (vibra_ff_write 1 (vibra_ff_upload timeout_ms s1).2).2)
  else
    (0, (vibra_ff_write 1 (vibra_ff_upload timeout_ms s).2).2)

def vibra_ff_off (s : Sys) : Int × Sys :=
  if s.vibra_ff_fd < 0 then (0, s)
  else
    let s1 := (vibra_ff_erase (vibra_ff_write 0 s).2).2
    (0, { s1.emit (Event.close s1.vibra_ff_fd) with vibra_ff_fd := -1 })

/-! ## Selector and handle -/

/-- The functions a handle can hold in `vibrator_on`. -/
inductive OnFn where
  | vibra_ff_on
  | vibra_led_on
  | vibra_on
deriving DecidableEq, Repr

/-- The functions a handle can hold in `vibrator_off`. -/
inductive OffFn where
  | vibra_ff_off
  | vibra_led_off
  | vibra_off
deriving DecidableEq, Repr

/-- The handle `vibrator_device_t`: the bound pair (the `common` header, whose tag, module
and version come from `hardware.h` and whose `close` is always `vibra_close`, is left out). -/
structure vibrator_device_t where
  vibrator_on : OnFn
  vibrator_off : OffFn
deriving DecidableEq, Repr

/-- Result of `vibra_open`: the return code, what was stored through `device` (`none`: the
caller's pointer was not written), and the state. -/
structure OpenOutcome where
  ret : Int
  device : Option vibrator_device_t
  sys : Sys

/-- The part of `vibra_open` after the probes: `calloc`, then the `switch` on `vibra_type`. -/
def vibra_open_bind (vibra_type : Nat) (s : Sys) : OpenOutcome :=
  let ok := s.env.calloc s.clock
  let s1 := s.emit (Event.calloc ok)
  if !ok then { ret := -ENOMEM, device := none, sys := s1 }
  else
    let vibradev : vibrator_device_t :=
      if vibra_type = VIBRATOR_FF then
        { vibrator_on := OnFn.vibra_ff_on, vibrator_off := OffFn.vibra_ff_off }
      else if vibra_type = VIBRATOR_LED then
        { vibrator_on := OnFn.vibra_led_on, vibrator_off := OffFn.vibra_led_off }
      else
        { vibrator_on := OnFn.vibra_on, vibrator_off := OffFn.vibra_off }
    { ret := 0, device := some vibradev, sys := s1 }

def vibra_open (s : Sys) : OpenOutcome :=
  let ff := vibra_ff_exists s
  if ff.1 then vibra_open_bind VIBRATOR_FF ff.2
  else
    let timed := vibra_exists ff.2
    if timed.1 then vibra_open_bind VIBRATOR_TIMED timed.2
    else
      let led := vibra_led_exists timed.2
      if led.1 then vibra_open_bind VIBRATOR_LED led.2
      else { ret := -ENODEV, device := none, sys := led.2 }

/-- Dispatch of a handle's `vibrator_on`. -/
def OnFn.call : OnFn → Nat → Sys → Int × Sys
  | OnFn.vibra_ff_on => Vibrator.vibra_ff_on
  | OnFn.vibra_led_on => Vibrator.vibra_led_on
  | OnFn.vibra_on => Vibrator.vibra_on

/-- Dispatch of a handle's `vibrator_off`. -/
def OffFn.call : OffFn → Sys → Int × Sys
  | OffFn.vibra_ff_off => Vibrator.vibra_ff_off
  | OffFn.vibra_led_off => Vibrator.vibra_led_off
  | OffFn.vibra_off => Vibrator.vibra_off


/-! ## Discovery, as the specification words it -/

/-- The specification's test on a directory entry: its name has the prefix `event`, it opens
read-write, and some allow-list name is a prefix of the device name it reports. -/
def entry_matches (e : DirEnt) : Bool :=
  "event".toList.isPrefixOf e.d_name &&
  (match e.open_res with
    | OpenResult.ok _ => true
    | OpenResult.fail _ => false) &&
  (match e.name with
    | some n => ["sc27xx:vibrator".toList].any (fun v => v.isPrefixOf n)
    | none => false)

/-! ## Sessions -/

/-- A run of `vibra_ff_on` calls with the given timeouts, no `vibra_ff_off` between them. -/
def ff_on_seq : List Nat → Sys → Sys
  | [], s => s
  | t :: ts, s => ff_on_seq ts (vibra_ff_on t s).2

/-- The effect id of the first successful upload of a list of uploads, if there is one. -/
def first_assigned : List (ff_effect × UploadResult) → Option Int
  | [] => none
  | (_, UploadResult.ok k) :: _ => some (k.val : Int)
  | (_, UploadResult.fail _) :: rest => first_assigned rest

/-- The id a session holds after the uploads `prev` when it started with `c` cached: `c` if
that is an id, else the first id the kernel assigned, else -1. -/
def session_id (c : Int) (prev : List (ff_effect × UploadResult)) : Int :=
  if 0 ≤ c then c
  else
    match first_assigned prev with
    | some k => k
    | none => -1

/-! ## Observations on traces -/

/-- Paths handed to `open`, in call order. -/
def opened_paths : List Event → List CStr
  | [] => []
  | Event.open_ path _ _ :: evs => path :: opened_paths evs
  | _ :: evs => opened_paths evs

/-- Number of `write` calls in a trace. -/
def write_count : List Event → Nat
  | [] => 0
  | Event.write _ _ _ _ :: evs => write_count evs + 1
  | _ :: evs => write_count evs

/-- A path below the input-device directory. -/
def under_input (path : CStr) : Bool := "/dev/input/".toList.isPrefixOf path

/-- Number of `calloc` calls in a trace. -/
def calloc_count : List Event → Nat
  | [] => 0
  | Event.calloc _ :: evs => calloc_count evs + 1
  | _ :: evs => calloc_count evs

/-- Buffers and byte counts handed to `write`, in call order. -/
def write_requests : List Event → List (Payload × Int)
  | [] => []
  | Event.write _ buf count _ :: evs => (buf, count) :: write_requests evs
  | _ :: evs => write_requests evs

/-- Effect records handed to `EVIOCSFF`, with the outcome of each upload, in call order. -/
def uploads : List Event → List (ff_effect × UploadResult)
  | [] => []
  | Event.eviocsff _ effect res :: evs => (effect, res) :: uploads evs
  | _ :: evs => uploads evs

/-! ## Auxiliary notions for the force-feedback steps -/

/-- The cached id after an upload with outcome `res`, when `cur` was cached before it. -/
def id_after_upload (cur : Int) (res : UploadResult) : Int :=
  if cur < 0 then
    match res with
    | UploadResult.ok k => (k.val : Int)
    | UploadResult.fail _ => cur
  else cur

/-- The state in which `vibra_ff_on` uploads: `s` itself when the descriptor is cached, else
`s` after the event node was opened as `fd`. -/
def opened_state (s : Sys) (fd : Nat) : Sys :=
  { s with
    trace := s.trace ++
      [Event.open_ (event_node_path s.vibra_event_id) OFlag.O_RDWR (OpenResult.ok fd)]
    vibra_ff_fd := (fd : Int) }

/-- The body of `vibra_ff_on` once the descriptor is open in state `s`: upload, then the
trigger write. -/
def upload_and_trigger (timeout_ms : Nat) (s : Sys) : Sys :=
  (vibra_ff_write 1 (vibra_ff_upload timeout_ms s).2).2

/-- An id the module can hold: none (-1) or a value of the kernel's `__s16` id range. -/
def IdOk (c : Int) : Prop := c = -1 ∨ (0 ≤ c ∧ c < 32768)

/-! ## Concrete worlds -/

def errno_EACCES : Errno := ⟨13, by decide⟩

/-- A world in which every file opens as descriptor 5, every write is complete, every
upload yields effect id 7, and `/dev/input` holds `mice` and the vibrator `event3`. -/
def env_ok : Env :=
  { opendir := fun _ _ => some
      [ { d_name := "mice".toList, open_res := OpenResult.ok 4, name := some "mouse".toList },
        { d_name := "event3".toList, open_res := OpenResult.ok 4,
          name := some "sc27xx:vibrator".toList } ]
    open_ := fun _ _ _ => OpenResult.ok 5
    write := fun _ _ _ n => WriteResult.ok n.toNat
    eviocsff := fun _ _ _ => UploadResult.ok 7
    eviocrmff := fun _ _ _ => EraseResult.ok
    calloc := fun _ => true }

/-- A world in which no file opens: every `open` fails with `EACCES`, `/dev/input` cannot be
listed. -/
def env_denied : Env :=
  { env_ok with
    opendir := fun _ _ => none
    open_ := fun _ _ _ => OpenResult.fail errno_EACCES }

/-- A world as `env_ok`, except that opening the LED `duration` file fails with `EACCES`. -/
def env_led_duration_fails : Env :=
  { env_ok with
    open_ := fun _ path _ =>
      if path = "/sys/class/leds/vibrator/duration".toList then OpenResult.fail errno_EACCES
      else OpenResult.ok 5 }

/-- A world as `env_ok`, except that the first upload of a session fails: the call made as
the second system call fails with `EACCES`, later uploads are given effect id 7. -/
def env_first_upload_fails : Env :=
  { env_ok with
    eviocsff := fun clock _ _ =>
      if clock = 1 then UploadResult.fail errno_EACCES else UploadResult.ok 7 }

/-- The state after `vibra_open` at program start in the world `env_ok`: the force-feedback
backend is bound and `vibra_event_id` is 3. -/
def sys_opened : Sys := (vibra_open (Sys.init env_ok)).sys

/-! ## Basic facts -/

@[simp] theorem emit_trace (s : Sys) (ev : Event) : (s.emit ev).trace = s.trace ++ [ev] := rfl
@[simp] theorem emit_env (s : Sys) (ev : Event) : (s.emit ev).env = s.env := rfl
@[simp] theorem emit_clock (s : Sys) (ev : Event) : (s.emit ev).clock = s.clock + 1 := by
  simp [Sys.clock]
@[simp] theorem emit_ff_id (s : Sys) (ev : Event) : (s.emit ev).vibra_ff_id = s.vibra_ff_id := rfl
@[simp] theorem emit_ff_fd (s : Sys) (ev : Event) : (s.emit ev).vibra_ff_fd = s.vibra_ff_fd := rfl
@[simp] theorem emit_event_id (s : Sys) (ev : Event) :
    (s.emit ev).vibra_event_id = s.vibra_event_id := rfl

theorem opened_paths_append (xs ys : List Event) :
    opened_paths (xs ++ ys) = opened_paths xs ++ opened_paths ys := by
  induction xs with
  | nil => rfl
  | cons x xs ih => cases x <;> simp [opened_paths, ih]

theorem write_count_append (xs ys : List Event) :
    write_count (xs ++ ys) = write_count xs + write_count ys := by
  induction xs with
  | nil => simp [write_count]
  | cons x xs ih => cases x <;> simp [write_count, ih]; omega

theorem write_requests_append (xs ys : List Event) :
    write_requests (xs ++ ys) = write_requests xs ++ write_requests ys := by
  induction xs with
  | nil => rfl
  | cons x xs ih => cases x <;> simp [write_requests, ih]

theorem uploads_append (xs ys : List Event) :
    uploads (xs ++ ys) = uploads xs ++ uploads ys := by
  induction xs with
  | nil => rfl
  | cons x xs ih => cases x <;> simp [uploads, ih]

/-- A 32-bit unsigned value has at most ten decimal digits. -/
theorem fmt_u_length (n : Nat) (h : n < 2 ^ 32) : (fmt_u n).length ≤ 10 := by
  unfold fmt_u Nat.toDigits
  exact Nat.toDigitsCore_length 10 (by decide) (n + 1) n 10 (by omega) (by decide)

/-- The 20-byte buffer holds the `%u` text of a 32-bit value whole. -/
theorem snprintf_fmt_u (n : Nat) (h : n < 2 ^ 32) :
    snprintf TIMEOUT_STR_LEN (fmt_u n) = fmt_u n := by
  have := fmt_u_length n h
  unfold snprintf TIMEOUT_STR_LEN
  exact List.take_of_length_le (by omega)

/-- The 20-byte buffer holds the `%u\n` text of a 32-bit value whole. -/
theorem snprintf_fmt_u_nl (n : Nat) (h : n < 2 ^ 32) :
    snprintf TIMEOUT_STR_LEN (fmt_u n ++ ['\n']) = fmt_u n ++ ['\n'] := by
  have := fmt_u_length n h
  unfold snprintf TIMEOUT_STR_LEN
  exact List.take_of_length_le (by simp; omega)

/-- Every `write_value` call opens its file exactly once. -/
theorem write_value_opened (file value : CStr) (s : Sys) :
    opened_paths (write_value file value s).2.trace = opened_paths s.trace ++ [file] := by
  unfold write_value
  cases h : s.env.open_ s.clock file OFlag.O_WRONLY <;>
    simp [opened_paths_append, opened_paths]

/-! ## Sysfs writer -/

/-- A negated errno is negative. -/
theorem neg_errno_neg (e : Errno) : -(e.val : Int) < 0 := by
  have := e.pos
  omega

/-- Result of `write_value` when the open fails. -/
theorem write_value_open_fail (file value : CStr) (s : Sys) (e : Errno)
    (ho : s.env.open_ s.clock file OFlag.O_WRONLY = OpenResult.fail e) :
    write_value file value s =
      (-(e.val : Int), s.emit (Event.open_ file OFlag.O_WRONLY (OpenResult.fail e))) := by
  unfold write_value
  rw [ho]

/-- Result of `write_value` when the open succeeds: decided by the outcome of the write. -/
theorem write_value_open_ok (file value : CStr) (s : Sys) (fd : Nat)
    (ho : s.env.open_ s.clock file OFlag.O_WRONLY = OpenResult.ok fd) :
    write_value file value s =
      ((match s.env.write (s.clock + 1) fd (Payload.bytes (value ++ ['\x00']))
            (strlen value + 1) with
        | WriteResult.fail e => -(e.val : Int)
        | WriteResult.ok written =>
          if (written : Int) ≠ (strlen value : Int) + 1 then -EAGAIN else 0),
       { s with trace := s.trace ++
          [Event.open_ file OFlag.O_WRONLY (OpenResult.ok fd),
           Event.write fd (Payload.bytes (value ++ ['\x00'])) (strlen value + 1)
             (s.env.write (s.clock + 1) fd (Payload.bytes (value ++ ['\x00']))
               (strlen value + 1)),
           Event.close fd] }) := by
  unfold write_value
  rw [ho]
  simp [Sys.emit, Sys.clock]

/-- C9: `write_value` returns 0 exactly when the open succeeds and the write reports
`strlen(value) + 1` bytes; a failed open or a failed write gives the negated errno, which is
negative; any other byte count gives `-EAGAIN`; and the call adds at most one `write`. -/
theorem write_value_result (file value : CStr) (s : Sys) :
    ((write_value file value s).1 = 0 ↔
      ∃ fd, s.env.open_ s.clock file OFlag.O_WRONLY = OpenResult.ok fd ∧
        s.env.write (s.clock + 1) fd (Payload.bytes (value ++ ['\x00'])) (strlen value + 1)
          = WriteResult.ok (strlen value + 1)) ∧
    (∀ e, s.env.open_ s.clock file OFlag.O_WRONLY = OpenResult.fail e →
      (write_value file value s).1 = -(e.val : Int) ∧ (write_value file value s).1 < 0) ∧
    (∀ fd e, s.env.open_ s.clock file OFlag.O_WRONLY = OpenResult.ok fd →
      s.env.write (s.clock + 1) fd (Payload.bytes (value ++ ['\x00'])) (strlen value + 1)
        = WriteResult.fail e →
      (write_value file value s).1 = -(e.val : Int) ∧ (write_value file value s).1 < 0) ∧
    (∀ fd n, s.env.open_ s.clock file OFlag.O_WRONLY = OpenResult.ok fd →
      s.env.write (s.clock + 1) fd (Payload.bytes (value ++ ['\x00'])) (strlen value + 1)
        = WriteResult.ok n → n ≠ strlen value + 1 →
      (write_value file value s).1 = -EAGAIN ∧ -EAGAIN < 0) ∧
    write_count (write_value file value s).2.trace ≤ write_count s.trace + 1 := by
  cases ho : s.env.open_ s.clock file OFlag.O_WRONLY with
  | fail e =>
    have hpos := e.pos
    rw [write_value_open_fail file value s e ho]
    refine ⟨⟨fun h => ?_, fun h => ?_⟩, ?_, ?_, ?_, ?_⟩
    · simp only at h; omega
    · obtain ⟨fd, h, _⟩ := h; cases h
    · intro e1 h; cases h; exact ⟨rfl, neg_errno_neg _⟩
    · intro fd e1 h; cases h
    · intro fd n h; cases h
    · simp [write_count_append, write_count]
  | ok fd =>
    cases hw : s.env.write (s.clock + 1) fd (Payload.bytes (value ++ ['\x00']))
        ((strlen value : Int) + 1) with
    | fail e =>
      have hpos := e.pos
      rw [write_value_open_ok file value s fd ho, hw]
      refine ⟨⟨fun h => ?_, fun h => ?_⟩, ?_, ?_, ?_, ?_⟩
      · simp at h; omega
      · obtain ⟨fd1, h, h2⟩ := h; cases h; rw [hw] at h2; cases h2
      · intro e1 h; cases h
      · intro fd1 e1 h h2; cases h; rw [hw] at h2; cases h2; exact ⟨rfl, neg_errno_neg _⟩
      · intro fd1 n h h2; cases h; rw [hw] at h2; cases h2
      · simp [write_count_append, write_count]
    | ok n =>
      rw [write_value_open_ok file value s fd ho, hw]
      have hcast : ((n : Int) = (strlen value : Int) + 1) ↔ n = strlen value + 1 := by
        constructor
        · intro h; exact_mod_cast h
        · intro h; exact_mod_cast h
      refine ⟨⟨fun h => ?_, fun h => ?_⟩, ?_, ?_, ?_, ?_⟩
      · refine ⟨fd, rfl, ?_⟩
        by_cases hn : n = strlen value + 1
        · rw [hw, hn]
        · have : ¬ ((n : Int) = (strlen value : Int) + 1) := fun h => hn (hcast.1 h)
          simp [this, EAGAIN] at h
      · obtain ⟨fd1, h, h2⟩ := h; cases h; rw [hw] at h2; cases h2
        simp
      · intro e1 h; cases h
      · intro fd1 e1 h h2; cases h; rw [hw] at h2; cases h2
      · intro fd1 n1 h h2 hne; cases h; rw [hw] at h2; cases h2
        have : ¬ ((n : Int) = (strlen value : Int) + 1) := fun h => hne (hcast.1 h)
        simp [this, EAGAIN]
      · simp [write_count_append, write_count]

/-- Witness of C9: in a world where the file opens and is written whole, the result is 0. -/
theorem write_value_result_witness :
    (write_value THE_DEVICE "0".toList (Sys.init env_ok)).1 = 0 :=
  (write_value_result THE_DEVICE "0".toList (Sys.init env_ok)).1.2 ⟨5, rfl, rfl⟩

/-! ## Timed-output backend -/

/-- C8: for a 32-bit `timeout_ms`, when the enable path opens, `vibra_on` opens
`/sys/class/timed_output/vibrator/enable` and requests one write of the decimal digits of
`timeout_ms` followed by one zero byte, digit count + 1 bytes, nothing being cut by the
20-byte buffer; `on(1000)` requests the 5 bytes `1000\0` and `vibra_off` the 2 bytes `0\0`
on the same path. -/
theorem vibra_on_write_request (timeout_ms : Nat) (s : Sys) (fd : Nat)
    (ht : timeout_ms < 2 ^ 32)
    (ho : s.env.open_ s.clock "/sys/class/timed_output/vibrator/enable".toList OFlag.O_WRONLY
      = OpenResult.ok fd) :
    (write_requests (vibra_on timeout_ms s).2.trace = write_requests s.trace ++
        [(Payload.bytes (Nat.toDigits 10 timeout_ms ++ ['\x00']),
          ((Nat.toDigits 10 timeout_ms).length : Int) + 1)] ∧
      opened_paths (vibra_on timeout_ms s).2.trace = opened_paths s.trace ++
        ["/sys/class/timed_output/vibrator/enable".toList] ∧
      (Nat.toDigits 10 timeout_ms).length + 1 ≤ TIMEOUT_STR_LEN) ∧
    write_requests (vibra_on 1000 s).2.trace = write_requests s.trace ++
      [(Payload.bytes ['1', '0', '0', '0', '\x00'], 5)] ∧
    (write_requests (vibra_off s).2.trace = write_requests s.trace ++
        [(Payload.bytes ['0', '\x00'], 2)] ∧
      opened_paths (vibra_off s).2.trace = opened_paths s.trace ++
        ["/sys/class/timed_output/vibrator/enable".toList]) := by
  have hdev : THE_DEVICE = "/sys/class/timed_output/vibrator/enable".toList := rfl
  have hlen := fmt_u_length timeout_ms ht
  have key : ∀ t : Nat, t < 2 ^ 32 →
      write_requests (vibra_on t s).2.trace = write_requests s.trace ++
        [(Payload.bytes (Nat.toDigits 10 t ++ ['\x00']), ((Nat.toDigits 10 t).length : Int) + 1)] ∧
      opened_paths (vibra_on t s).2.trace = opened_paths s.trace ++
        ["/sys/class/timed_output/vibrator/enable".toList] := by
    intro t h
    unfold vibra_on sendit
    rw [snprintf_fmt_u t h, hdev]
    refine ⟨?_, write_value_opened _ _ _⟩
    rw [write_value_open_ok _ _ s fd ho]
    simp [write_requests_append, write_requests, fmt_u, strlen]
  refine ⟨⟨(key timeout_ms ht).1, (key timeout_ms ht).2, ?_⟩, ?_, ?_⟩
  · unfold fmt_u at hlen
    unfold TIMEOUT_STR_LEN
    omega
  · exact (key 1000 (by decide)).1
  · exact key 0 (by decide)

/-- Witness of C8: `on(1000)` in a world where the enable path opens as descriptor 5. -/
theorem vibra_on_write_request_witness :
    write_requests (vibra_on 1000 (Sys.init env_ok)).2.trace =
      [(Payload.bytes ['1', '0', '0', '0', '\x00'], 5)] :=
  (vibra_on_write_request 1000 (Sys.init env_ok) 5 (by decide) rfl).2.1

/-! ## LED backend -/

/-- The three LED files, as `write_led_file` builds their paths in its 64-byte buffer. -/
theorem write_led_file_paths (value : CStr) (s : Sys) :
    write_led_file "state".toList value s
      = write_value "/sys/class/leds/vibrator/state".toList value s ∧
    write_led_file "duration".toList value s
      = write_value "/sys/class/leds/vibrator/duration".toList value s ∧
    write_led_file "activate".toList value s
      = write_value "/sys/class/leds/vibrator/activate".toList value s :=
  ⟨rfl, rfl, rfl⟩

/-- C7: with `w1`, `w2`, `w3` the writes of `1` to `state`, of the decimal `timeout_ms` and a
newline to `duration`, and of `1` to `activate` under `/sys/class/leds/vibrator`, made in that
order, `vibra_led_on` stops at the first one whose result is non-zero and returns that result;
when the write to `duration` fails, only `state` and `duration` have been opened and the
result is that write's error code. -/
theorem vibra_led_on_order (timeout_ms : Nat) (s : Sys) (ht : timeout_ms < 2 ^ 32) :
    let w1 := write_value "/sys/class/leds/vibrator/state".toList ['1'] s
    let w2 := write_value "/sys/class/leds/vibrator/duration".toList
      (Nat.toDigits 10 timeout_ms ++ ['\n']) w1.2
    let w3 := write_value "/sys/class/leds/vibrator/activate".toList ['1'] w2.2
    vibra_led_on timeout_ms s = (if w1.1 ≠ 0 then w1 else if w2.1 ≠ 0 then w2 else w3) ∧
    (w1.1 ≠ 0 → opened_paths (vibra_led_on timeout_ms s).2.trace = opened_paths s.trace ++
      ["/sys/class/leds/vibrator/state".toList]) ∧
    (w1.1 = 0 → w2.1 ≠ 0 →
      (vibra_led_on timeout_ms s).1 = w2.1 ∧
      opened_paths (vibra_led_on timeout_ms s).2.trace = opened_paths s.trace ++
        ["/sys/class/leds/vibrator/state".toList,
         "/sys/class/leds/vibrator/duration".toList]) ∧
    (w1.1 = 0 → w2.1 = 0 →
      opened_paths (vibra_led_on timeout_ms s).2.trace = opened_paths s.trace ++
        ["/sys/class/leds/vibrator/state".toList,
         "/sys/class/leds/vibrator/duration".toList,
         "/sys/class/leds/vibrator/activate".toList]) := by
  intro w1 w2 w3
  have hmain : vibra_led_on timeout_ms s =
      (if w1.1 ≠ 0 then w1 else if w2.1 ≠ 0 then w2 else w3) := by
    unfold vibra_led_on
    simp only [(write_led_file_paths _ _).1, (write_led_file_paths _ _).2.1,
      (write_led_file_paths _ _).2.2, snprintf_fmt_u_nl timeout_ms ht]
    rfl
  refine ⟨hmain, ?_, ?_, ?_⟩
  · intro h1
    rw [hmain, if_pos h1]
    exact write_value_opened _ _ _
  · intro h1 h2
    rw [hmain, if_neg (not_not.mpr h1), if_pos h2]
    refine ⟨rfl, ?_⟩
    show opened_paths (write_value _ _ w1.2).2.trace = _
    rw [write_value_opened, write_value_opened]
    simp
  · intro h1 h2
    rw [hmain, if_neg (not_not.mpr h1), if_neg (not_not.mpr h2)]
    show opened_paths (write_value _ _ (write_value _ _ w1.2).2).2.trace = _
    rw [write_value_opened, write_value_opened, write_value_opened]
    simp

/-- Witness of C7: `on(200)` with the `duration` write failing returns that write's `-EACCES`
and opens `state` and `duration` only. -/
theorem vibra_led_on_order_witness :
    (vibra_led_on 200 (Sys.init env_led_duration_fails)).1 = -13 ∧
    opened_paths (vibra_led_on 200 (Sys.init env_led_duration_fails)).2.trace =
      ["/sys/class/leds/vibrator/state".toList, "/sys/class/leds/vibrator/duration".toList] :=
  (vibra_led_on_order 200 (Sys.init env_led_duration_fails) (by decide)).2.2.1
    (by decide) (by decide)

/-! ## Force-feedback backend: single steps -/

/-- What `vibra_ff_upload` does on an open descriptor: one `EVIOCSFF` call with the record
`upload_effect`, and the kernel's id cached only when none was cached. -/
theorem vibra_ff_upload_open (timeout_ms : Nat) (s : Sys) (h : 0 ≤ s.vibra_ff_fd) :
    (vibra_ff_upload timeout_ms s).2 =
      { s with
        trace := s.trace ++ [Event.eviocsff s.vibra_ff_fd (upload_effect s.vibra_ff_id timeout_ms)
          (s.env.eviocsff s.clock s.vibra_ff_fd (upload_effect s.vibra_ff_id timeout_ms))]
        vibra_ff_id := id_after_upload s.vibra_ff_id
          (s.env.eviocsff s.clock s.vibra_ff_fd (upload_effect s.vibra_ff_id timeout_ms)) } := by
  unfold vibra_ff_upload id_after_upload
  rw [if_neg (by omega)]
  cases hr : s.env.eviocsff s.clock s.vibra_ff_fd (upload_effect s.vibra_ff_id timeout_ms) with
  | fail e =>
    by_cases hid : s.vibra_ff_id < 0 <;> simp [Sys.emit, hid, hr]
  | ok k =>
    by_cases hid : s.vibra_ff_id < 0 <;> simp [Sys.emit, hid, hr]

/-- What `vibra_ff_write` does on an open descriptor: one `write` of the record `ff_event`. -/
theorem vibra_ff_write_open (count : Nat) (s : Sys) (h : 0 ≤ s.vibra_ff_fd) :
    (vibra_ff_write count s).2 =
      { s with
        trace := s.trace ++ [Event.write s.vibra_ff_fd
          (Payload.event (ff_event s.vibra_ff_id count)) sizeof_input_event
          (s.env.write s.clock s.vibra_ff_fd (Payload.event (ff_event s.vibra_ff_id count))
            sizeof_input_event)] } := by
  unfold vibra_ff_write
  rw [if_neg (by omega)]
  simp only [Sys.emit]
  split <;> rfl

/-- What `vibra_ff_erase` does on an open descriptor: one `EVIOCRMFF` call for the cached id,
after which no id is cached, whatever the call returned. -/
theorem vibra_ff_erase_open (s : Sys) (h : 0 ≤ s.vibra_ff_fd) :
    vibra_ff_erase s =
      (0, { s with
        trace := s.trace ++ [Event.eviocrmff s.vibra_ff_fd s.vibra_ff_id
          (s.env.eviocrmff s.clock s.vibra_ff_fd s.vibra_ff_id)]
        vibra_ff_id := -1 }) := by
  unfold vibra_ff_erase
  rw [if_neg (by omega)]
  rfl

theorem vibra_ff_on_cached (timeout_ms : Nat) (s : Sys) (h : 0 ≤ s.vibra_ff_fd) :
    vibra_ff_on timeout_ms s = (0, upload_and_trigger timeout_ms s) := by
  unfold vibra_ff_on upload_and_trigger
  rw [if_neg (by omega)]

theorem vibra_ff_on_opens (timeout_ms : Nat) (s : Sys) (fd : Nat) (h : s.vibra_ff_fd < 0)
    (ho : s.env.open_ s.clock (event_node_path s.vibra_event_id) OFlag.O_RDWR
      = OpenResult.ok fd) :
    vibra_ff_on timeout_ms s = (0, upload_and_trigger timeout_ms (opened_state s fd)) := by
  unfold vibra_ff_on upload_and_trigger
  rw [if_pos h, ho]
  rfl

theorem vibra_ff_on_open_fails (timeout_ms : Nat) (s : Sys) (e : Errno) (h : s.vibra_ff_fd < 0)
    (ho : s.env.open_ s.clock (event_node_path s.vibra_event_id) OFlag.O_RDWR
      = OpenResult.fail e) :
    vibra_ff_on timeout_ms s =
      (-(e.val : Int),
        { s with
          trace := s.trace ++
            [Event.open_ (event_node_path s.vibra_event_id) OFlag.O_RDWR (OpenResult.fail e)]
          vibra_ff_fd := -1 }) := by
  unfold vibra_ff_on
  rw [if_pos h, ho]
  rfl

/-- The state after upload and trigger on an open descriptor. -/
theorem upload_and_trigger_open (timeout_ms : Nat) (s : Sys) (h : 0 ≤ s.vibra_ff_fd) :
    upload_and_trigger timeout_ms s =
      { s with
        trace := s.trace ++
          [Event.eviocsff s.vibra_ff_fd (upload_effect s.vibra_ff_id timeout_ms)
            (s.env.eviocsff s.clock s.vibra_ff_fd (upload_effect s.vibra_ff_id timeout_ms)),
           Event.write s.vibra_ff_fd
            (Payload.event (ff_event (id_after_upload s.vibra_ff_id
              (s.env.eviocsff s.clock s.vibra_ff_fd (upload_effect s.vibra_ff_id timeout_ms))) 1))
            sizeof_input_event
            (s.env.write (s.clock + 1) s.vibra_ff_fd
              (Payload.event (ff_event (id_after_upload s.vibra_ff_id
                (s.env.eviocsff s.clock s.vibra_ff_fd
                  (upload_effect s.vibra_ff_id timeout_ms))) 1))
              sizeof_input_event)]
        vibra_ff_id := id_after_upload s.vibra_ff_id
          (s.env.eviocsff s.clock s.vibra_ff_fd (upload_effect s.vibra_ff_id timeout_ms)) } := by
  unfold upload_and_trigger
  rw [vibra_ff_upload_open timeout_ms s h, vibra_ff_write_open]
  · simp [Sys.clock]
  · exact h

/-- The state after `vibra_ff_off` on an open descriptor: stop event, erase, close, in that
order, and both statics reset. -/
theorem vibra_ff_off_open (s : Sys) (h : 0 ≤ s.vibra_ff_fd) :
    vibra_ff_off s =
      (0, { s with
        trace := s.trace ++
          [Event.write s.vibra_ff_fd (Payload.event (ff_event s.vibra_ff_id 0))
            sizeof_input_event
            (s.env.write s.clock s.vibra_ff_fd (Payload.event (ff_event s.vibra_ff_id 0))
              sizeof_input_event),
           Event.eviocrmff s.vibra_ff_fd s.vibra_ff_id
            (s.env.eviocrmff (s.clock + 1) s.vibra_ff_fd s.vibra_ff_id),
           Event.close s.vibra_ff_fd]
        vibra_ff_id := -1
        vibra_ff_fd := -1 }) := by
  unfold vibra_ff_off
  rw [if_neg (by omega), vibra_ff_write_open 0 s h, vibra_ff_erase_open]
  · simp [Sys.emit, Sys.clock]
  · exact h

theorem vibra_ff_off_closed (s : Sys) (h : s.vibra_ff_fd < 0) : vibra_ff_off s = (0, s) := by
  unfold vibra_ff_off
  rw [if_pos h]

/-! ## Force-feedback backend: best-effort results -/

/-- C10: once the descriptor is open (cached, or opened by this call) `vibra_ff_on` returns 0
in every world, whatever the upload and the trigger write return; `vibra_ff_off` returns 0 in
every world and, on an open descriptor, leaves no id and no descriptor cached whatever the
stop write and the erase return; `vibra_ff_on` returns non-zero exactly when no descriptor is
cached and the event node does not open, and the value is then the negated errno. -/
theorem vibra_ff_best_effort (timeout_ms : Nat) (s : Sys) :
    (0 ≤ s.vibra_ff_fd → (vibra_ff_on timeout_ms s).1 = 0) ∧
    (∀ fd, s.vibra_ff_fd < 0 →
      s.env.open_ s.clock (event_node_path s.vibra_event_id) OFlag.O_RDWR = OpenResult.ok fd →
      (vibra_ff_on timeout_ms s).1 = 0) ∧
    (vibra_ff_off s).1 = 0 ∧
    (0 ≤ s.vibra_ff_fd →
      (vibra_ff_off s).2.vibra_ff_id = -1 ∧ (vibra_ff_off s).2.vibra_ff_fd = -1) ∧
    ((vibra_ff_on timeout_ms s).1 ≠ 0 ↔
      s.vibra_ff_fd < 0 ∧ ∃ e, s.env.open_ s.clock (event_node_path s.vibra_event_id)
        OFlag.O_RDWR = OpenResult.fail e) ∧
    (∀ e, s.vibra_ff_fd < 0 →
      s.env.open_ s.clock (event_node_path s.vibra_event_id) OFlag.O_RDWR = OpenResult.fail e →
      (vibra_ff_on timeout_ms s).1 = -(e.val : Int)) := by
  refine ⟨fun h => ?_, fun fd h ho => ?_, ?_, fun h => ?_, ?_, fun e h ho => ?_⟩
  · rw [vibra_ff_on_cached timeout_ms s h]
  · rw [vibra_ff_on_opens timeout_ms s fd h ho]
  · by_cases h : s.vibra_ff_fd < 0
    · rw [vibra_ff_off_closed s h]
    · rw [vibra_ff_off_open s (by omega)]
  · rw [vibra_ff_off_open s h]
    exact ⟨rfl, rfl⟩
  · by_cases h : s.vibra_ff_fd < 0
    · cases ho : s.env.open_ s.clock (event_node_path s.vibra_event_id) OFlag.O_RDWR with
      | ok fd =>
        rw [vibra_ff_on_opens timeout_ms s fd h ho]
        simp
      | fail e =>
        rw [vibra_ff_on_open_fails timeout_ms s e h ho]
        have := neg_errno_neg e
        simp only [ne_eq, h, true_and]
        constructor
        · intro _; exact ⟨e, rfl⟩
        · intro _; omega
    · rw [vibra_ff_on_cached timeout_ms s (by omega)]
      simp [h]
  · rw [vibra_ff_on_open_fails timeout_ms s e h ho]

/-- Witness of C10: when the event node does not open, `vibra_ff_on` returns `-EACCES`. -/
theorem vibra_ff_best_effort_witness :
    (vibra_ff_on 50 (Sys.init env_denied)).1 = -13 :=
  (vibra_ff_best_effort 50 (Sys.init env_denied)).2.2.2.2.2 errno_EACCES (by decide) rfl

/-! ## Force-feedback backend: the uploaded record -/

/-- The fields of the record that is uploaded: rumble, weak magnitude 1 and nothing else set,
delay 0, the cached id or -1, and a replay length that is `timeout_ms` reduced to the 16 bits
of `ff_replay.length`. -/
theorem upload_effect_fields (vibra_ff_id : Int) (timeout_ms : Nat)
    (hid : vibra_ff_id = -1 ∨ (0 ≤ vibra_ff_id ∧ vibra_ff_id < 32768)) :
    upload_effect vibra_ff_id timeout_ms =
      { type := FF_RUMBLE, id := vibra_ff_id, direction := 0, trigger_button := 0,
        trigger_interval := 0, replay_length := timeout_ms % 65536, replay_delay := 0,
        rumble_strong_magnitude := 0, rumble_weak_magnitude := 1 } := by
  have h1 : toS16 (if vibra_ff_id ≥ 0 then vibra_ff_id else -1) = vibra_ff_id := by
    unfold toS16
    rcases hid with h | ⟨h, h2⟩
    · subst h; decide
    · rw [if_pos h]; omega
  have h2 : toU16 (timeout_ms : Int) = timeout_ms % 65536 := by
    unfold toU16
    omega
  unfold upload_effect
  rw [h1, h2]
  rfl

/-- C6 at the input `timeout_ms = 70000`: after `vibra_open` found `event3`, the record that
`vibra_ff_on` uploads carries the replay length 4464, not 70000. -/
theorem vibra_ff_on_duration_70000 :
    (uploads (vibra_ff_on 70000 sys_opened).2.trace).map (fun u => u.1.replay_length) = [4464] ∧
    (4464 : Nat) ≠ 70000 := by
  decide

/-- The scenario of C6 within 16 bits: after `vibra_open` found `event3`, `on(50)` opens
`/dev/input/event3`, uploads a rumble record of duration 50 that asks for a new id, and
triggers the id 7 the kernel assigned. -/
theorem vibra_ff_on_50 :
    (vibra_ff_on 50 sys_opened).2.trace = sys_opened.trace ++
      [Event.open_ "/dev/input/event3".toList OFlag.O_RDWR (OpenResult.ok 5),
       Event.eviocsff 5
        { type := 0x50, id := -1, direction := 0, trigger_button := 0, trigger_interval := 0,
          replay_length := 50, replay_delay := 0, rumble_strong_magnitude := 0,
          rumble_weak_magnitude := 1 } (UploadResult.ok 7),
       Event.write 5 (Payload.event
        { time_sec := 0, time_usec := 0, type := 0x15, code := 7, value := 1 }) 24
        (WriteResult.ok 24)] := by
  decide

/-- Every 32-bit `timeout_ms` below 65536 is uploaded unchanged; from 65536 on the uploaded
replay length differs from `timeout_ms`. -/
theorem upload_effect_duration (vibra_ff_id : Int) (timeout_ms : Nat) :
    (upload_effect vibra_ff_id timeout_ms).replay_length = timeout_ms ↔ timeout_ms < 65536 := by
  have h2 : toU16 (timeout_ms : Int) = timeout_ms % 65536 := by
    unfold toU16
    omega
  show toU16 (timeout_ms : Int) = timeout_ms ↔ _
  rw [h2]
  omega

/-- No id is cached without a descriptor: this holds at program start and is kept by
`vibra_ff_on` and `vibra_ff_off`. -/
theorem session_inv_kept (t : Nat) (s : Sys) (hinv : s.vibra_ff_fd < 0 → s.vibra_ff_id = -1) :
    ((Sys.init s.env).vibra_ff_fd < 0 → (Sys.init s.env).vibra_ff_id = -1) ∧
    ((vibra_ff_on t s).2.vibra_ff_fd < 0 → (vibra_ff_on t s).2.vibra_ff_id = -1) ∧
    ((vibra_ff_off s).2.vibra_ff_fd < 0 → (vibra_ff_off s).2.vibra_ff_id = -1) := by
  refine ⟨fun _ => rfl, ?_, ?_⟩
  · by_cases hfd : s.vibra_ff_fd < 0
    · cases ho : s.env.open_ s.clock (event_node_path s.vibra_event_id) OFlag.O_RDWR with
      | fail err =>
        rw [vibra_ff_on_open_fails t s err hfd ho]
        intro _
        exact hinv hfd
      | ok fd =>
        rw [vibra_ff_on_opens t s fd hfd ho,
          upload_and_trigger_open t (opened_state s fd) (by simp [opened_state])]
        simp only [opened_state]
        intro h
        omega
    · rw [vibra_ff_on_cached t s (by omega), upload_and_trigger_open t s (by omega)]
      intro h
      exact absurd h hfd
  · by_cases hfd : s.vibra_ff_fd < 0
    · rw [vibra_ff_off_closed s hfd]
      exact hinv
    · rw [vibra_ff_off_open s (by omega)]
      intro _
      rfl

/-! ## Force-feedback backend: the cached effect id over a session -/

theorem id_after_upload_ok (c : Int) (res : UploadResult) (h : IdOk c) :
    IdOk (id_after_upload c res) := by
  unfold id_after_upload
  split
  · cases res with
    | ok k => right; have := k.isLt; simp only; omega
    | fail e => exact h
  · exact h

theorem session_id_step (c : Int) (e : ff_effect) (res : UploadResult)
    (prev : List (ff_effect × UploadResult)) (h : IdOk c) :
    session_id (id_after_upload c res) prev = session_id c ((e, res) :: prev) := by
  unfold session_id id_after_upload
  rcases h with h | ⟨h, _⟩
  · subst h
    cases res with
    | ok k => simp [first_assigned]
    | fail err => simp [first_assigned]
  · have : ¬ c < 0 := by omega
    simp [this, h]

/-- One `vibra_ff_on`: either no upload is made and the cached id stays, or exactly one upload
is made, with the cached id in its record, and the cached id becomes `id_after_upload`. -/
theorem vibra_ff_on_uploads (t : Nat) (s : Sys) (h : IdOk s.vibra_ff_id) :
    (uploads (vibra_ff_on t s).2.trace = uploads s.trace ∧
      (vibra_ff_on t s).2.vibra_ff_id = s.vibra_ff_id) ∨
    (∃ e res, e.id = s.vibra_ff_id ∧
      uploads (vibra_ff_on t s).2.trace = uploads s.trace ++ [(e, res)] ∧
      (vibra_ff_on t s).2.vibra_ff_id = id_after_upload s.vibra_ff_id res) := by
  have hid : (upload_effect s.vibra_ff_id t).id = s.vibra_ff_id := by
    rw [upload_effect_fields s.vibra_ff_id t h]
  by_cases hfd : s.vibra_ff_fd < 0
  · cases ho : s.env.open_ s.clock (event_node_path s.vibra_event_id) OFlag.O_RDWR with
    | fail err =>
      left
      rw [vibra_ff_on_open_fails t s err hfd ho]
      simp [uploads_append, uploads]
    | ok fd =>
      right
      rw [vibra_ff_on_opens t s fd hfd ho,
        upload_and_trigger_open t (opened_state s fd) (by simp [opened_state])]
      exact ⟨_, _, hid, by simp [uploads_append, uploads, opened_state], rfl⟩
  · right
    rw [vibra_ff_on_cached t s (by omega), upload_and_trigger_open t s (by omega)]
    exact ⟨_, _, hid, by simp [uploads_append, uploads], rfl⟩

/-- Over a run of `vibra_ff_on` calls, every upload carries the session id as it stands after
the uploads before it, and the run ends with the session id cached. -/
theorem ff_on_seq_uploads (ts : List Nat) :
    ∀ s : Sys, IdOk s.vibra_ff_id →
      ∃ us, uploads (ff_on_seq ts s).trace = uploads s.trace ++ us ∧
        (∀ i e r, us[i]? = some (e, r) → e.id = session_id s.vibra_ff_id (us.take i)) ∧
        (ff_on_seq ts s).vibra_ff_id = session_id s.vibra_ff_id us := by
  induction ts with
  | nil =>
    intro s h
    refine ⟨[], by simp [ff_on_seq], by simp, ?_⟩
    unfold session_id ff_on_seq
    rcases h with h | ⟨h, _⟩
    · rw [h]; rfl
    · simp [h]
  | cons t ts ih =>
    intro s h
    rcases vibra_ff_on_uploads t s h with ⟨hu, hi⟩ | ⟨e0, r0, he0, hu, hi⟩
    · obtain ⟨us, h1, h2, h3⟩ := ih (vibra_ff_on t s).2 (by rw [hi]; exact h)
      refine ⟨us, ?_, ?_, ?_⟩
      · show uploads (ff_on_seq ts (vibra_ff_on t s).2).trace = _
        rw [h1, hu]
      · intro i e r hget
        rw [← hi]
        exact h2 i e r hget
      · show (ff_on_seq ts (vibra_ff_on t s).2).vibra_ff_id = _
        rw [h3, hi]
    · obtain ⟨us, h1, h2, h3⟩ :=
        ih (vibra_ff_on t s).2 (by rw [hi]; exact id_after_upload_ok _ _ h)
      refine ⟨(e0, r0) :: us, ?_, ?_, ?_⟩
      · show uploads (ff_on_seq ts (vibra_ff_on t s).2).trace = _
        rw [h1, hu]
        simp
      · intro i e r hget
        cases i with
        | zero =>
          simp only [List.getElem?_cons_zero, Option.some.injEq, Prod.mk.injEq] at hget
          obtain ⟨rfl, rfl⟩ := hget
          rw [he0]
          unfold session_id
          rcases h with h | ⟨h, _⟩
          · rw [h]; rfl
          · simp [h]
        | succ i =>
          simp only [List.getElem?_cons_succ] at hget
          rw [List.take_succ_cons, ← session_id_step _ e0 r0 _ h, ← hi]
          exact h2 i e r hget
      · show (ff_on_seq ts (vibra_ff_on t s).2).vibra_ff_id = _
        rw [h3, hi, session_id_step _ e0 r0 _ h]

/-- C5: in a session that starts with no id cached, whatever the uploads return, every upload
of a run of `vibra_ff_on` calls carries in its record the id the kernel assigned on the first
successful upload before it (-1, a new id, while there is none), the run ends with that id
cached, and `vibra_ff_erase` on the open descriptor resets it, so that the next upload asks
for a new id again. -/
theorem ff_session_effect_id (ts : List Nat) (s : Sys) (hstart : s.vibra_ff_id = -1) :
    (∀ i e r,
      ((uploads (ff_on_seq ts s).trace).drop (uploads s.trace).length)[i]? = some (e, r) →
      e.id = (match first_assigned
          (((uploads (ff_on_seq ts s).trace).drop (uploads s.trace).length).take i) with
        | some k => k
        | none => -1)) ∧
    (ff_on_seq ts s).vibra_ff_id =
      (match first_assigned ((uploads (ff_on_seq ts s).trace).drop (uploads s.trace).length) with
        | some k => k
        | none => -1) ∧
    (0 ≤ (ff_on_seq ts s).vibra_ff_fd →
      (vibra_ff_erase (ff_on_seq ts s)).2.vibra_ff_id = -1 ∧
      ∀ t, (upload_effect (vibra_ff_erase (ff_on_seq ts s)).2.vibra_ff_id t).id = -1) := by
  obtain ⟨us, h1, h2, h3⟩ := ff_on_seq_uploads ts s (Or.inl hstart)
  have hdrop : (uploads (ff_on_seq ts s).trace).drop (uploads s.trace).length = us := by
    rw [h1]; simp
  have hsess : ∀ prev, session_id s.vibra_ff_id prev =
      (match first_assigned prev with
        | some k => k
        | none => -1) := by
    intro prev
    unfold session_id
    rw [hstart]
    rfl
  rw [hdrop]
  refine ⟨fun i e r hget => ?_, ?_, fun hfd => ?_⟩
  · rw [← hsess]; exact h2 i e r hget
  · rw [← hsess]; exact h3
  · rw [vibra_ff_erase_open _ hfd]
    refine ⟨rfl, fun t => ?_⟩
    show (upload_effect (-1) t).id = -1
    rw [upload_effect_fields (-1) t (Or.inl rfl)]

/-- Witness of C5: three `vibra_ff_on` calls, the first upload failing: the records carry the
ids -1, -1, 7 and the session ends with 7 cached. -/
theorem ff_session_effect_id_witness :
    (uploads (ff_on_seq [50, 60, 70] (Sys.init env_first_upload_fails)).trace).map
        (fun u => u.1.id) = [-1, -1, 7] ∧
    (ff_on_seq [50, 60, 70] (Sys.init env_first_upload_fails)).vibra_ff_id = 7 :=
  ⟨by decide,
    (ff_session_effect_id [50, 60, 70] (Sys.init env_first_upload_fails) rfl).2.1⟩

/-! ## `off` twice after `on` -/

/-- After `vibra_ff_on`, a descriptor that is not open is -1, and then no id is cached,
provided no id was cached without a descriptor before the call. -/
theorem vibra_ff_on_closed_state (t : Nat) (s : Sys)
    (hinv : s.vibra_ff_fd < 0 → s.vibra_ff_id = -1) :
    (vibra_ff_on t s).2.vibra_ff_fd < 0 →
      (vibra_ff_on t s).2.vibra_ff_fd = -1 ∧ (vibra_ff_on t s).2.vibra_ff_id = -1 := by
  by_cases hfd : s.vibra_ff_fd < 0
  · cases ho : s.env.open_ s.clock (event_node_path s.vibra_event_id) OFlag.O_RDWR with
    | fail err =>
      rw [vibra_ff_on_open_fails t s err hfd ho]
      intro _
      exact ⟨rfl, hinv hfd⟩
    | ok fd =>
      rw [vibra_ff_on_opens t s fd hfd ho,
        upload_and_trigger_open t (opened_state s fd) (by simp [opened_state])]
      simp only [opened_state]
      intro h
      omega
  · rw [vibra_ff_on_cached t s (by omega), upload_and_trigger_open t s (by omega)]
    intro h
    exact absurd h hfd

/-- Two `vibra_ff_off` calls in a row, from a state whose descriptor is open, or is -1 with
no id cached. -/
theorem vibra_ff_off_twice (u : Sys)
    (h : u.vibra_ff_fd < 0 → u.vibra_ff_fd = -1 ∧ u.vibra_ff_id = -1) :
    (vibra_ff_off u).1 = 0 ∧
    (vibra_ff_off (vibra_ff_off u).2).1 = 0 ∧
    (vibra_ff_off u).2.vibra_ff_fd = -1 ∧
    (vibra_ff_off u).2.vibra_ff_id = -1 ∧
    (vibra_ff_off (vibra_ff_off u).2).2 = (vibra_ff_off u).2 ∧
    (0 ≤ u.vibra_ff_fd →
      (vibra_ff_off u).2.trace = u.trace ++
        [Event.write u.vibra_ff_fd (Payload.event (ff_event u.vibra_ff_id 0))
          sizeof_input_event
          (u.env.write u.clock u.vibra_ff_fd (Payload.event (ff_event u.vibra_ff_id 0))
            sizeof_input_event),
         Event.eviocrmff u.vibra_ff_fd u.vibra_ff_id
          (u.env.eviocrmff (u.clock + 1) u.vibra_ff_fd u.vibra_ff_id),
         Event.close u.vibra_ff_fd]) := by
  by_cases hfd : u.vibra_ff_fd < 0
  · have e := vibra_ff_off_closed u hfd
    rw [e]
    refine ⟨rfl, ?_, (h hfd).1, (h hfd).2, ?_, fun h0 => by omega⟩
    · show (vibra_ff_off u).1 = 0
      rw [e]
    · show (vibra_ff_off u).2 = u
      rw [e]
  · rw [vibra_ff_off_open u (by omega)]
    refine ⟨rfl, ?_, rfl, rfl, ?_, fun _ => rfl⟩
    · rw [vibra_ff_off_closed _ (by simp)]
    · rw [vibra_ff_off_closed _ (by simp)]

/-- C4 as stated fails: with the sysfs files not openable, `off` after `on` returns
`-EACCES`, not 0, on the timed-output and on the LED backend. -/
theorem off_after_on_sysfs_fails :
    (vibra_off (vibra_on 50 (Sys.init env_denied)).2).1 = -13 ∧
    (vibra_led_off (vibra_led_on 50 (Sys.init env_denied)).2).1 = -13 := by
  decide

/-- C4, amended: on the force-feedback backend, from a state with no id cached without a
descriptor, two `vibra_ff_off` calls after `vibra_ff_on` both return 0 and leave descriptor
and id at -1; when `vibra_ff_on` left the descriptor open the first one writes the stop
event, erases and closes, in that order; the second one changes nothing.  On the timed-output
and LED backends `off` is one `write_value` of `0` to `enable`, to `activate`, which touches
none of the statics and returns 0 when the file opens and the write is complete and the
negated errno when the file does not open. -/
theorem off_twice_after_on (timeout_ms : Nat) (s : Sys)
    (hinv : s.vibra_ff_fd < 0 → s.vibra_ff_id = -1) :
    let s1 := (vibra_ff_on timeout_ms s).2
    ((vibra_ff_off s1).1 = 0 ∧
      (vibra_ff_off (vibra_ff_off s1).2).1 = 0 ∧
      (vibra_ff_off s1).2.vibra_ff_fd = -1 ∧
      (vibra_ff_off s1).2.vibra_ff_id = -1 ∧
      (vibra_ff_off (vibra_ff_off s1).2).2 = (vibra_ff_off s1).2 ∧
      (0 ≤ s1.vibra_ff_fd →
        (vibra_ff_off s1).2.trace = s1.trace ++
          [Event.write s1.vibra_ff_fd (Payload.event (ff_event s1.vibra_ff_id 0))
            sizeof_input_event
            (s1.env.write s1.clock s1.vibra_ff_fd (Payload.event (ff_event s1.vibra_ff_id 0))
              sizeof_input_event),
           Event.eviocrmff s1.vibra_ff_fd s1.vibra_ff_id
            (s1.env.eviocrmff (s1.clock + 1) s1.vibra_ff_fd s1.vibra_ff_id),
           Event.close s1.vibra_ff_fd])) ∧
    (∀ u : Sys,
      vibra_off u = write_value "/sys/class/timed_output/vibrator/enable".toList ['0'] u ∧
      vibra_led_off u = write_value "/sys/class/leds/vibrator/activate".toList ['0'] u) ∧
    (∀ (file : CStr) (u : Sys),
      ((write_value file ['0'] u).2.vibra_ff_fd = u.vibra_ff_fd ∧
        (write_value file ['0'] u).2.vibra_ff_id = u.vibra_ff_id ∧
        (write_value file ['0'] u).2.vibra_event_id = u.vibra_event_id) ∧
      (∀ fd, u.env.open_ u.clock file OFlag.O_WRONLY = OpenResult.ok fd →
        u.env.write (u.clock + 1) fd (Payload.bytes ['0', '\x00']) 2 = WriteResult.ok 2 →
        (write_value file ['0'] u).1 = 0) ∧
      (∀ e, u.env.open_ u.clock file OFlag.O_WRONLY = OpenResult.fail e →
        (write_value file ['0'] u).1 = -(e.val : Int) ∧ (write_value file ['0'] u).1 ≠ 0)) := by
  intro s1
  refine ⟨vibra_ff_off_twice s1 (vibra_ff_on_closed_state timeout_ms s hinv),
    fun u => ⟨rfl, rfl⟩, fun file u => ⟨?_, ?_, ?_⟩⟩
  · cases ho : u.env.open_ u.clock file OFlag.O_WRONLY with
    | fail e => rw [write_value_open_fail file _ u e ho]; exact ⟨rfl, rfl, rfl⟩
    | ok fd => rw [write_value_open_ok file _ u fd ho]; exact ⟨rfl, rfl, rfl⟩
  · intro fd ho hw
    rw [write_value_open_ok file _ u fd ho]
    have hw2 : u.env.write (u.clock + 1) fd (Payload.bytes (['0'] ++ ['\x00']))
        ((strlen ['0'] : Int) + 1) = WriteResult.ok 2 := hw
    rw [hw2]
    simp [strlen]
  · intro e ho
    rw [write_value_open_fail file _ u e ho]
    have := neg_errno_neg e
    exact ⟨rfl, by simp only; omega⟩

/-- Witness of C4, amended: `on(50)` from the start state in a world where everything
succeeds, then `off` twice. -/
theorem off_twice_after_on_witness :
    (vibra_ff_off (vibra_ff_on 50 (Sys.init env_ok)).2).1 = 0 ∧
    (vibra_ff_off (vibra_ff_off (vibra_ff_on 50 (Sys.init env_ok)).2).2).1 = 0 ∧
    (vibra_ff_off (vibra_ff_on 50 (Sys.init env_ok)).2).2.vibra_ff_fd = -1 ∧
    (vibra_ff_off (vibra_ff_on 50 (Sys.init env_ok)).2).2.vibra_ff_id = -1 :=
  have h := (off_twice_after_on 50 (Sys.init env_ok) (fun _ => rfl)).1
  ⟨h.1, h.2.1, h.2.2.1, h.2.2.2.1⟩

/-! ## Force-feedback discovery -/

theorem char_toNat_ne (a b : Char) (h : a ≠ b) : (a.toNat : Int) - (b.toNat : Int) ≠ 0 := by
  intro h0
  apply h
  have h1 : a.toNat = b.toNat := by omega
  rw [← Char.ofNat_toNat a, ← Char.ofNat_toNat b, h1]

/-- The call `strncmp(s, p, strlen(p))` is zero exactly when `p` is a prefix of `s`, for a
text `p` without a zero character. -/
theorem strncmp_right_prefix (p : CStr) (hp : ∀ c ∈ p, c.toNat ≠ 0) :
    ∀ s : CStr, strncmp s p p.length = 0 ↔ p.isPrefixOf s = true := by
  induction p with
  | nil => intro s; simp [strncmp]
  | cons a as ih =>
    intro s
    have ha : a.toNat ≠ 0 := hp a (List.mem_cons_self _ _)
    cases s with
    | nil =>
      simp only [List.length_cons, strncmp, List.isPrefixOf_cons_nil]
      constructor
      · intro h; omega
      · intro h; cases h
    | cons b bs =>
      simp only [List.length_cons, strncmp, List.isPrefixOf_cons₂]
      by_cases hab : b = a
      · subst hab
        simp [ih (fun c hc => hp c (List.mem_cons_of_mem _ hc)) bs]
      · have hba : ¬ a = b := fun h => hab h.symm
        simp [hab, hba, char_toNat_ne b a hab]

/-- The call `strncmp(p, s, strlen(p))` is zero exactly when `p` is a prefix of `s`, for a
text `p` without a zero character. -/
theorem strncmp_left_prefix (p : CStr) (hp : ∀ c ∈ p, c.toNat ≠ 0) :
    ∀ s : CStr, strncmp p s p.length = 0 ↔ p.isPrefixOf s = true := by
  induction p with
  | nil => intro s; simp [strncmp]
  | cons a as ih =>
    intro s
    have ha : a.toNat ≠ 0 := hp a (List.mem_cons_self _ _)
    cases s with
    | nil =>
      simp only [List.length_cons, strncmp, List.isPrefixOf_cons_nil]
      constructor
      · intro h; omega
      · intro h; cases h
    | cons b bs =>
      simp only [List.length_cons, strncmp, List.isPrefixOf_cons₂]
      by_cases hab : a = b
      · subst hab
        simp [ih (fun c hc => hp c (List.mem_cons_of_mem _ hc)) bs]
      · simp [hab, char_toNat_ne a b hab]

/-- Cutting the reported name to the 63 characters of the buffer does not change whether a
text of at most 63 characters is a prefix of it. -/
theorem isPrefixOf_take (p n : CStr) (k : Nat) (h : p.length ≤ k) :
    p.isPrefixOf (n.take k) = p.isPrefixOf n := by
  rw [Bool.eq_iff_iff, List.isPrefixOf_iff_prefix, List.isPrefixOf_iff_prefix,
    List.prefix_take_iff]
  exact ⟨fun h1 => h1.1, fun h1 => ⟨h1, h⟩⟩

/-- The test `is_vibra_ff` on the name buffer is the allow-list prefix test on the name the
device reports. -/
theorem is_vibra_ff_take (n : CStr) :
    is_vibra_ff (n.take (64 - 1)) = ["sc27xx:vibrator".toList].any (fun v => v.isPrefixOf n) := by
  have h := strncmp_left_prefix "sc27xx:vibrator".toList (by decide) (n.take (64 - 1))
  have h2 := isPrefixOf_take "sc27xx:vibrator".toList n (64 - 1) (by decide)
  unfold is_vibra_ff ff_vibrators strlen
  simp only [List.any_cons, List.any_nil, Bool.or_false]
  rw [← h2, Bool.eq_iff_iff, decide_eq_true_iff]
  exact h

/-- The walk of the directory returns what `sscanf` reads from the first entry that passes
the specification's test, and leaves `found` as it was when there is none. -/
theorem vibra_ff_lookup_loop_find (entries : List DirEnt) :
    ∀ (found : Int) (s : Sys),
      (vibra_ff_lookup_loop entries found s).1 =
        (match entries.find? entry_matches with
          | some e => sscanf_event_d e.d_name found
          | none => found) := by
  induction entries with
  | nil => intro found s; rfl
  | cons e rest ih =>
    intro found s
    have hev := strncmp_right_prefix "event".toList (by decide) e.d_name
    unfold vibra_ff_lookup_loop
    by_cases h1 : "event".toList.isPrefixOf e.d_name = true
    · have hz : strncmp e.d_name "event".toList (strlen "event".toList) = 0 := hev.2 h1
      simp only [hz, ne_eq, not_true_eq_false, if_false]
      cases hopen : e.open_res with
      | fail err =>
        have hm : entry_matches e = false := by
          unfold entry_matches
          rw [h1, hopen]
          rfl
        simp only [List.find?, hm, ih]
      | ok fd =>
        cases hname : e.name with
        | none =>
          have hm : entry_matches e = false := by
            unfold entry_matches
            rw [h1, hopen, hname]
            rfl
          have hno : is_vibra_ff [] = false := by decide
          simp only [List.find?, hm, hno, Bool.false_eq_true, if_false, ih]
        | some n =>
          have hm : entry_matches e =
              ["sc27xx:vibrator".toList].any (fun v => v.isPrefixOf n) := by
            unfold entry_matches
            rw [h1, hopen, hname]
            rfl
          simp only [is_vibra_ff_take]
          cases hany : ["sc27xx:vibrator".toList].any (fun v => v.isPrefixOf n) with
          | true =>
            rw [hany] at hm
            simp only [List.find?, hm, if_true]
          | false =>
            rw [hany] at hm
            simp only [List.find?, hm, Bool.false_eq_true, if_false, ih]
    · have hnz : strncmp e.d_name "event".toList (strlen "event".toList) ≠ 0 :=
        fun h => h1 (hev.1 h)
      have hm : entry_matches e = false := by
        unfold entry_matches
        rw [Bool.eq_false_iff.2 h1]
        rfl
      simp only [hnz, ne_eq, not_false_eq_true, if_true, List.find?, hm, ih]

theorem digit_not_space (c : Char) (h : c.isDigit = true) : isspace c = false := by
  unfold isspace
  simp only [Bool.or_eq_false_iff, decide_eq_false_iff_not]
  refine ⟨⟨⟨⟨⟨?_, ?_⟩, ?_⟩, ?_⟩, ?_⟩, ?_⟩ <;> (rintro rfl; revert h; decide)

theorem digit_not_sign (c : Char) (h : c.isDigit = true) : c ≠ '-' ∧ c ≠ '+' := by
  constructor <;> (rintro rfl; revert h; decide)

/-- On a non-empty run of digits `%d` reads the whole run. -/
theorem scan_d_digits (ds : CStr) (hne : ds ≠ []) (hd : ∀ c ∈ ds, c.isDigit = true) :
    scan_d ds = some (toS32 (decimalValue ds 0)) := by
  cases ds with
  | nil => exact absurd rfl hne
  | cons c cs =>
    have hc : c.isDigit = true := hd c (List.mem_cons_self _ _)
    have hsp := digit_not_space c hc
    have hsg := digit_not_sign c hc
    have htake : (c :: cs).takeWhile Char.isDigit = c :: cs :=
      List.takeWhile_eq_self_iff.2 hd
    unfold scan_d
    simp only [List.dropWhile_cons, hsp, Bool.false_eq_true, if_false, List.head?_cons,
      Option.some.injEq, hsg.1, hsg.2, or_self, htake, decide_False, reduceCtorEq]

/-- On a name `event` followed by a non-empty run of digits, `sscanf` stores the value of the
run, as an `int`. -/
theorem sscanf_event_digits (ds : CStr) (found : Int) (hne : ds ≠ [])
    (hd : ∀ c ∈ ds, c.isDigit = true) :
    sscanf_event_d ("event".toList ++ ds) found = toS32 (decimalValue ds 0) := by
  have hp : "event".toList.isPrefixOf ("event".toList ++ ds) = true := by
    rw [List.isPrefixOf_iff_prefix]
    exact List.prefix_append _ _
  have hdrop : ("event".toList ++ ds).drop 5 = ds := rfl
  unfold sscanf_event_d
  rw [if_pos hp, hdrop, scan_d_digits ds hne hd]

/-- C3: when `/dev/input` can be listed, `vibra_ff_lookup` looks at the first entry, in
enumeration order, whose name has the prefix `event`, that opens read-write and whose
reported name has the allow-list name `sc27xx:vibrator` as a prefix: with no such entry it
returns -1, and when that entry is named `event` followed by the decimal digits of a number
that fits an `int`, it returns that number. -/
theorem vibra_ff_lookup_first_match (s : Sys) (entries : List DirEnt)
    (hdir : s.env.opendir s.clock "/dev/input".toList = some entries) :
    (entries.find? entry_matches = none → (vibra_ff_lookup s).1 = -1) ∧
    (∀ (e : DirEnt) (ds : CStr), entries.find? entry_matches = some e →
      e.d_name = "event".toList ++ ds → ds ≠ [] → (∀ c ∈ ds, c.isDigit = true) →
      decimalValue ds 0 < 2 ^ 31 →
      (vibra_ff_lookup s).1 = (decimalValue ds 0 : Int)) := by
  have hdir2 : s.env.opendir s.clock INPUT_DEVICE = some entries := hdir
  have hres : (vibra_ff_lookup s).1 =
      (match entries.find? entry_matches with
        | some e => sscanf_event_d e.d_name (-1)
        | none => -1) := by
    unfold vibra_ff_lookup
    rw [hdir2]
    exact vibra_ff_lookup_loop_find entries (-1) _
  refine ⟨fun h => ?_, fun e ds h hname hne hd hlt => ?_⟩
  · rw [hres, h]
  · rw [hres, h]
    simp only
    rw [hname, sscanf_event_digits ds (-1) hne hd]
    unfold toS32
    omega

/-- Witness of C3: a directory holding `mice` and then `event3`, which reports the name
`sc27xx:vibrator`, yields index 3. -/
theorem vibra_ff_lookup_first_match_witness :
    (vibra_ff_lookup (Sys.init env_ok)).1 = 3 :=
  (vibra_ff_lookup_first_match (Sys.init env_ok) _ rfl).2
    { d_name := "event3".toList, open_res := OpenResult.ok 4,
      name := some "sc27xx:vibrator".toList }
    ['3'] (by decide) rfl (by decide) (by decide) (by decide)

/-! ## Selector -/

theorem calloc_count_append (xs ys : List Event) :
    calloc_count (xs ++ ys) = calloc_count xs + calloc_count ys := by
  induction xs with
  | nil => simp [calloc_count]
  | cons x xs ih => cases x <;> simp [calloc_count, ih]; omega

/-- The probe `device_exists` succeeds exactly when the file opens read-write; it leaves the
world as it is and allocates nothing. -/
theorem device_exists_frame (file : CStr) (s : Sys) :
    ((device_exists file s).1 = true ↔
      ∃ fd, s.env.open_ s.clock file OFlag.O_RDWR = OpenResult.ok fd) ∧
    (device_exists file s).2.env = s.env ∧
    calloc_count (device_exists file s).2.trace = calloc_count s.trace := by
  unfold device_exists
  cases h : s.env.open_ s.clock file OFlag.O_RDWR <;>
    simp [calloc_count_append, calloc_count]

theorem vibra_ff_lookup_loop_frame (entries : List DirEnt) :
    ∀ (found : Int) (s : Sys),
      (vibra_ff_lookup_loop entries found s).2.env = s.env ∧
      calloc_count (vibra_ff_lookup_loop entries found s).2.trace = calloc_count s.trace := by
  induction entries with
  | nil =>
    intro found s
    simp [vibra_ff_lookup_loop, calloc_count_append, calloc_count]
  | cons e rest ih =>
    intro found s
    unfold vibra_ff_lookup_loop
    simp only
    split
    · have h := ih found (s.emit (Event.readdir (some e.d_name)))
      simpa [calloc_count_append, calloc_count] using h
    · split
      · rename_i err _
        have h := ih found ((s.emit (Event.readdir (some e.d_name))).emit
          (Event.open_ (snprintf (256 - 1) (INPUT_DEVICE ++ '/' :: e.d_name)) OFlag.O_RDWR
            e.open_res))
        simpa [calloc_count_append, calloc_count] using h
      · rename_i fd _
        split
        · simp [calloc_count_append, calloc_count]
        · have h := ih found ((((s.emit (Event.readdir (some e.d_name))).emit
            (Event.open_ (snprintf (256 - 1) (INPUT_DEVICE ++ '/' :: e.d_name)) OFlag.O_RDWR
              e.open_res)).emit (Event.eviocgname fd (64 - 1) e.name)).emit (Event.close fd))
          simpa [calloc_count_append, calloc_count] using h

theorem vibra_ff_lookup_frame (s : Sys) :
    (vibra_ff_lookup s).2.env = s.env ∧
    calloc_count (vibra_ff_lookup s).2.trace = calloc_count s.trace := by
  unfold vibra_ff_lookup
  split
  · simp [calloc_count_append, calloc_count]
  · rename_i entries _
    have h := vibra_ff_lookup_loop_frame entries (-1) (s.emit (Event.opendir INPUT_DEVICE true))
    simpa [calloc_count_append, calloc_count] using h

theorem vibra_ff_exists_frame (s : Sys) :
    (vibra_ff_exists s).2.env = s.env ∧
    calloc_count (vibra_ff_exists s).2.trace = calloc_count s.trace := by
  have h := vibra_ff_lookup_frame s
  unfold vibra_ff_exists
  simp only
  split
  · exact h
  · have h2 := device_exists_frame
      (event_node_path (vibra_ff_lookup s).1)
      { (vibra_ff_lookup s).2 with vibra_event_id := (vibra_ff_lookup s).1 }
    exact ⟨h2.2.1.trans h.1, h2.2.2.trans h.2⟩

/-- The probes of `vibra_open` leave the world as it is and allocate nothing. -/
theorem probes_frame (s : Sys) :
    ((vibra_ff_exists s).2.env = s.env ∧
      calloc_count (vibra_ff_exists s).2.trace = calloc_count s.trace) ∧
    ((vibra_exists (vibra_ff_exists s).2).2.env = s.env ∧
      calloc_count (vibra_exists (vibra_ff_exists s).2).2.trace = calloc_count s.trace) ∧
    ((vibra_led_exists (vibra_exists (vibra_ff_exists s).2).2).2.env = s.env ∧
      calloc_count (vibra_led_exists (vibra_exists (vibra_ff_exists s).2).2).2.trace
        = calloc_count s.trace) := by
  have h1 := vibra_ff_exists_frame s
  have h2 := device_exists_frame THE_DEVICE (vibra_ff_exists s).2
  have h3 := device_exists_frame
    (snprintf VIBRATOR_FILE_LEN (LED_DEVICE ++ '/' :: "activate".toList))
    (vibra_exists (vibra_ff_exists s).2).2
  have e2 : (vibra_exists (vibra_ff_exists s).2).2.env = s.env := h2.2.1.trans h1.1
  have c2 : calloc_count (vibra_exists (vibra_ff_exists s).2).2.trace = calloc_count s.trace :=
    h2.2.2.trans h1.2
  exact ⟨h1, ⟨e2, c2⟩, h3.2.1.trans e2, h3.2.2.trans c2⟩

/-- A text that starts with `/dev/input/` keeps that start when it is cut to a buffer of at
least 12 bytes. -/
theorem under_input_snprintf (size : Nat) (rest : CStr) (h : 12 ≤ size) :
    under_input (snprintf size ("/dev/input/".toList ++ rest)) = true := by
  unfold under_input snprintf
  rw [List.isPrefixOf_iff_prefix, List.prefix_take_iff]
  refine ⟨List.prefix_append _ _, ?_⟩
  have : "/dev/input/".toList.length = 11 := rfl
  omega

theorem event_node_path_under_input (event_id : Int) :
    under_input (event_node_path event_id) = true := by
  have h : INPUT_DEVICE ++ "/event".toList ++ fmt_d event_id
      = "/dev/input/".toList ++ ("event".toList ++ fmt_d event_id) := rfl
  unfold event_node_path
  rw [h]
  exact under_input_snprintf VIBRATOR_FILE_LEN _ (by decide)

/-- The walk of the directory opens only paths below `/dev/input/`. -/
theorem vibra_ff_lookup_loop_opened (entries : List DirEnt) :
    ∀ (found : Int) (s : Sys),
      ∃ ps, opened_paths (vibra_ff_lookup_loop entries found s).2.trace
          = opened_paths s.trace ++ ps ∧ ∀ p ∈ ps, under_input p = true := by
  induction entries with
  | nil =>
    intro found s
    exact ⟨[], by simp [vibra_ff_lookup_loop, opened_paths_append, opened_paths], by simp⟩
  | cons e rest ih =>
    intro found s
    have hpath : under_input (snprintf (256 - 1) (INPUT_DEVICE ++ '/' :: e.d_name)) = true :=
      under_input_snprintf (256 - 1) e.d_name (by decide)
    unfold vibra_ff_lookup_loop
    simp only
    split
    · obtain ⟨ps, h1, h2⟩ := ih found (s.emit (Event.readdir (some e.d_name)))
      exact ⟨ps, by simpa [opened_paths_append, opened_paths] using h1, h2⟩
    · split
      · obtain ⟨ps, h1, h2⟩ := ih found ((s.emit (Event.readdir (some e.d_name))).emit
          (Event.open_ (snprintf (256 - 1) (INPUT_DEVICE ++ '/' :: e.d_name)) OFlag.O_RDWR
            e.open_res))
        refine ⟨snprintf (256 - 1) (INPUT_DEVICE ++ '/' :: e.d_name) :: ps, ?_, ?_⟩
        · simpa [opened_paths_append, opened_paths] using h1
        · intro p hp
          rcases List.mem_cons.1 hp with rfl | hp
          · exact hpath
          · exact h2 p hp
      · rename_i fd _
        split
        · refine ⟨[snprintf (256 - 1) (INPUT_DEVICE ++ '/' :: e.d_name)], ?_, ?_⟩
          · simp [opened_paths_append, opened_paths]
          · intro p hp
            rw [List.mem_singleton.1 hp]
            exact hpath
        · obtain ⟨ps, h1, h2⟩ := ih found ((((s.emit (Event.readdir (some e.d_name))).emit
            (Event.open_ (snprintf (256 - 1) (INPUT_DEVICE ++ '/' :: e.d_name)) OFlag.O_RDWR
              e.open_res)).emit (Event.eviocgname fd (64 - 1) e.name)).emit (Event.close fd))
          refine ⟨snprintf (256 - 1) (INPUT_DEVICE ++ '/' :: e.d_name) :: ps, ?_, ?_⟩
          · simpa [opened_paths_append, opened_paths] using h1
          · intro p hp
            rcases List.mem_cons.1 hp with rfl | hp
            · exact hpath
            · exact h2 p hp

/-- The force-feedback probe opens only paths below `/dev/input/`. -/
theorem vibra_ff_exists_opened (s : Sys) :
    ∃ ps, opened_paths (vibra_ff_exists s).2.trace = opened_paths s.trace ++ ps ∧
      ∀ p ∈ ps, under_input p = true := by
  have hlook : ∃ ps, opened_paths (vibra_ff_lookup s).2.trace = opened_paths s.trace ++ ps ∧
      ∀ p ∈ ps, under_input p = true := by
    unfold vibra_ff_lookup
    split
    · exact ⟨[], by simp [opened_paths_append, opened_paths], by simp⟩
    · rename_i entries _
      obtain ⟨ps, h1, h2⟩ :=
        vibra_ff_lookup_loop_opened entries (-1) (s.emit (Event.opendir INPUT_DEVICE true))
      exact ⟨ps, by simpa [opened_paths_append, opened_paths] using h1, h2⟩
  obtain ⟨ps, h1, h2⟩ := hlook
  unfold vibra_ff_exists
  simp only
  split
  · exact ⟨ps, h1, h2⟩
  · refine ⟨ps ++ [event_node_path (vibra_ff_lookup s).1], ?_, ?_⟩
    · unfold device_exists
      split <;> simp [opened_paths_append, opened_paths, h1, Sys.clock]
    · intro p hp
      rcases List.mem_append.1 hp with hp | hp
      · exact h2 p hp
      · rw [List.mem_singleton.1 hp]
        exact event_node_path_under_input _

/-- The `switch` of `vibra_open` once the allocation succeeded. -/
theorem vibra_open_bind_ok (vibra_type : Nat) (s : Sys) (h : s.env.calloc s.clock = true) :
    (vibra_open_bind vibra_type s).ret = 0 ∧
    (vibra_open_bind vibra_type s).device = some
      (if vibra_type = VIBRATOR_FF then
        { vibrator_on := OnFn.vibra_ff_on, vibrator_off := OffFn.vibra_ff_off }
      else if vibra_type = VIBRATOR_LED then
        { vibrator_on := OnFn.vibra_led_on, vibrator_off := OffFn.vibra_led_off }
      else
        { vibrator_on := OnFn.vibra_on, vibrator_off := OffFn.vibra_off }) := by
  unfold vibra_open_bind
  simp [h]

/-- C1: in a world where the allocation succeeds, `vibra_open` returns 0 and binds the pair
of the first mechanism whose probe succeeds, in the order force-feedback, timed-output, LED;
when the force-feedback probe succeeds the pair is `vibra_ff_on`/`vibra_ff_off`, whatever the
other two probes would answer: they are not run, every path opened lies below `/dev/input/`. -/
theorem vibra_open_priority (s : Sys) (halloc : ∀ n, s.env.calloc n = true) :
    ((vibra_ff_exists s).1 = true →
      (vibra_open s).ret = 0 ∧
      (vibra_open s).device = some
        { vibrator_on := OnFn.vibra_ff_on, vibrator_off := OffFn.vibra_ff_off }) ∧
    ((vibra_ff_exists s).1 = false → (vibra_exists (vibra_ff_exists s).2).1 = true →
      (vibra_open s).ret = 0 ∧
      (vibra_open s).device = some
        { vibrator_on := OnFn.vibra_on, vibrator_off := OffFn.vibra_off }) ∧
    ((vibra_ff_exists s).1 = false → (vibra_exists (vibra_ff_exists s).2).1 = false →
      (vibra_led_exists (vibra_exists (vibra_ff_exists s).2).2).1 = true →
      (vibra_open s).ret = 0 ∧
      (vibra_open s).device = some
        { vibrator_on := OnFn.vibra_led_on, vibrator_off := OffFn.vibra_led_off }) ∧
    ((vibra_ff_exists s).1 = true →
      ∀ p ∈ (opened_paths (vibra_open s).sys.trace).drop (opened_paths s.trace).length,
        p ≠ "/sys/class/timed_output/vibrator/enable".toList ∧
        p ≠ "/sys/class/leds/vibrator/activate".toList) := by
  obtain ⟨⟨e1, _⟩, ⟨e2, _⟩, e3, _⟩ := probes_frame s
  refine ⟨fun hff => ?_, fun hff ht => ?_, fun hff ht hl => ?_, fun hff p hp => ?_⟩
  · unfold vibra_open
    simp only [hff, if_true]
    exact vibra_open_bind_ok VIBRATOR_FF _ (by rw [e1]; exact halloc _)
  · unfold vibra_open
    simp only [hff, ht, if_true, Bool.false_eq_true, if_false]
    exact vibra_open_bind_ok VIBRATOR_TIMED _ (by rw [e2]; exact halloc _)
  · unfold vibra_open
    simp only [hff, ht, hl, if_true, Bool.false_eq_true, if_false]
    exact vibra_open_bind_ok VIBRATOR_LED _ (by rw [e3]; exact halloc _)
  · obtain ⟨ps, h1, h2⟩ := vibra_ff_exists_opened s
    have htr : opened_paths (vibra_open s).sys.trace = opened_paths s.trace ++ ps := by
      unfold vibra_open
      simp only [hff, if_true]
      unfold vibra_open_bind
      simp only [e1, halloc, Bool.not_true, Bool.false_eq_true, if_false, emit_trace,
        opened_paths_append, h1]
      simp [opened_paths]
    rw [htr, List.drop_left] at hp
    have hu := h2 p hp
    constructor
    · rintro rfl
      revert hu
      decide
    · rintro rfl
      revert hu
      decide

/-- Witness of C1: with the vibrator found under `/dev/input` and every sysfs file openable
too, the force-feedback pair is bound. -/
theorem vibra_open_priority_witness :
    (vibra_open (Sys.init env_ok)).ret = 0 ∧
    (vibra_open (Sys.init env_ok)).device = some
      { vibrator_on := OnFn.vibra_ff_on, vibrator_off := OffFn.vibra_ff_off } :=
  (vibra_open_priority (Sys.init env_ok) (fun _ => rfl)).1 (by decide)

/-- C2: when none of the three probes succeeds, `vibra_open` returns `-ENODEV`, stores
nothing through `device` and has made no allocation. -/
theorem vibra_open_no_device (s : Sys)
    (hff : (vibra_ff_exists s).1 = false)
    (htimed : (vibra_exists (vibra_ff_exists s).2).1 = false)
    (hled : (vibra_led_exists (vibra_exists (vibra_ff_exists s).2).2).1 = false) :
    (vibra_open s).ret = -ENODEV ∧ ENODEV = 19 ∧
    (vibra_open s).device = none ∧
    calloc_count (vibra_open s).sys.trace = calloc_count s.trace := by
  obtain ⟨_, _, _, c3⟩ := probes_frame s
  have hopen : vibra_open s =
      { ret := -ENODEV, device := none,
        sys := (vibra_led_exists (vibra_exists (vibra_ff_exists s).2).2).2 } := by
    unfold vibra_open
    simp only [hff, htimed, hled, Bool.false_eq_true, if_false]
  rw [hopen]
  exact ⟨rfl, rfl, rfl, c3⟩

/-- Witness of C2: in a world where nothing opens, `vibra_open` returns -19 and no handle. -/
theorem vibra_open_no_device_witness :
    (vibra_open (Sys.init env_denied)).ret = -19 ∧
    (vibra_open (Sys.init env_denied)).device = none :=
  have h := vibra_open_no_device (Sys.init env_denied) (by decide) (by decide) (by decide)
  ⟨h.1, h.2.2.1⟩

end Vibrator
